import Mathlib

/-!
Verification of the admission-control core of the facebook-ads-mcp server.

The development shallowly embeds the tool handlers of `src/server.ts`
(the `analyzeCompetitorStrategy` and `checkActivityPulse` handlers), the
result-cache interface (`apify-cache.ts`, whose implementation is absent
from the snapshot and is therefore modelled from the specification), and
the admission controller (`apify-semaphore.ts`, likewise absent and
modelled from the specification).

Asynchronous external calls (the Apify actor run, the AI gateway call,
the cache store, the semaphore) are modelled as oracle inputs to the
handler; the handler is a pure function from those oracles to a trace
recording which external calls were made and the final tool outcome.
-/

/-- The admission result returned by `ApifySemaphore.acquireSlot`
(the `SemaphoreSlot` type from `src/types.ts`, with fields as used by
the handlers' `finally` blocks and by the fix report in
`unnamed/part_000`). -/
structure SemaphoreSlot where
  acquired : Bool
  currentSlots : Nat
  maxSlots : Nat
  estimatedWaitTime : Option Nat
  deriving Repr, DecidableEq

/-- Outcome of one tool invocation: a normal return carrying the
`structuredContent` payload, or an `isError: true` result carrying the
`Error: ...` text produced by the handler's catch block. -/
inductive ToolOutcome (α : Type) where
  | ok (payload : α) : ToolOutcome α
  | err (text : String) : ToolOutcome α
  deriving Repr, DecidableEq

/-- True exactly on the `isError: true` results. -/
def ToolOutcome.isErr {α : Type} : ToolOutcome α → Bool
  | .ok _ => false
  | .err _ => true

/-- Effect trace of one handler run: which external calls happened
(cache lookup, semaphore acquire, actor run), the payloads written to
the cache, the holder for which `releaseSlot` was invoked in the
`finally` block (none when it was not invoked), and the tool outcome. -/
structure HandlerTrace (α : Type) where
  calledCacheLookup : Bool
  calledAcquire : Bool
  calledRunActor : Bool
  cacheWrites : List α
  releasedHolder : Option String
  outcome : ToolOutcome α
  deriving Repr, DecidableEq

/-- JavaScript line terminators, which `.` in a RegExp (without the `s`
flag) does not match. -/
def isJsLineTerminator (c : Char) : Bool :=
  c = '\n' || c = '\r' || c = Char.ofNat 0x2028 || c = Char.ofNat 0x2029

/-- Embedding of `facebookUrlPattern.test(url)` for the pattern
`^https:\/\/(www\.)?facebook\.com\/.+$` (src/server.ts:91): the string
is one of the two literal prefixes followed by at least one character,
none of which is a line terminator. -/
def testFacebookUrlPattern (s : String) : Bool :=
  let cs := s.toList
  let rest? : Option (List Char) :=
    if ("https://www.facebook.com/".toList).isPrefixOf cs then some (cs.drop 25)
    else if ("https://facebook.com/".toList).isPrefixOf cs then some (cs.drop 21)
    else none
  match rest? with
  | some rest => decide (0 < rest.length) && rest.all (fun c => !isJsLineTerminator c)
  | none => false

/-- JavaScript truthiness of a possibly-absent string: present and
non-empty. -/
def truthyStr : Option String → Bool
  | some s => decide (s ≠ "")
  | none => false

/-- `o || d` for a possibly-absent string `o` and default `d`. -/
def strOr (o : Option String) (d : String) : String :=
  match o with
  | some s => if s = "" then d else s
  | none => d

/-! ### Scraper result shapes (as consumed by src/server.ts) -/

/-- One card of an ad snapshot (`snapshot.cards[i]`). -/
structure AdCard where
  video_hd_url : Option String
  originalImageUrl : Option String
  deriving Repr, DecidableEq

/-- `snapshot.body` of an ad. -/
structure AdBody where
  text : Option String
  deriving Repr, DecidableEq

/-- `ad.snapshot`. -/
structure AdSnapshot where
  cards : List AdCard
  body : Option AdBody
  title : Option String
  ctaText : Option String
  deriving Repr, DecidableEq

/-- One item returned by the facebook-ads-scraper actor for the
analyze/gallery tools. -/
structure Ad where
  snapshot : Option AdSnapshot
  pageName : Option String
  deriving Repr, DecidableEq

/-- The value returned by `apifyClient.runActorSync` for the analyze
tool: `results.items` may be absent (`results.items || []`). -/
structure ActorRunResult where
  items : Option (List Ad)
  deriving Repr, DecidableEq

/-! ### analyzeCompetitorStrategy result computation (src/server.ts:147-195) -/

/-- `format_statistics` of the analyze result. -/
structure FormatStatistics where
  total : Nat
  video_percentage : Nat
  image_percentage : Nat
  deriving Repr, DecidableEq

/-- `metadata` of the analyze result. -/
structure AnalyzeMetadata where
  page_name : String
  analysis_date : String
  sample_size : Nat
  deriving Repr, DecidableEq

/-- The analyze tool's `finalResult` (`marketing_hooks.hooks` inlined as
a list). -/
structure AnalyzeResult where
  format_statistics : FormatStatistics
  marketing_hooks : List String
  metadata : AnalyzeMetadata
  deriving Repr, DecidableEq

/-- `ad.snapshot?.cards?.[0]?.video_hd_url` truthiness
(src/server.ts:150). -/
def adHasVideo (ad : Ad) : Bool :=
  match ad.snapshot with
  | some sn =>
    match sn.cards.head? with
    | some card => truthyStr card.video_hd_url
    | none => false
  | none => false

/-- `Math.round((num / den) * 100)` on exact rationals: round half up. -/
def roundPct (num den : Nat) : Nat :=
  (200 * num + den) / (2 * den)

/-- The `formatStats` object computed at src/server.ts:150-156. -/
def formatStatistics (rawAds : List Ad) : FormatStatistics :=
  let videoCount := (rawAds.filter adHasVideo).length
  let imageCount := rawAds.length - videoCount
  { total := rawAds.length
    video_percentage := if 0 < rawAds.length then roundPct videoCount rawAds.length else 0
    image_percentage := if 0 < rawAds.length then roundPct imageCount rawAds.length else 0 }

/-- `ad.snapshot?.body?.text`. -/
def getBodyText (ad : Ad) : Option String :=
  ad.snapshot.bind fun sn => sn.body.bind fun b => b.text

/-- The `adTexts` list (src/server.ts:159-162): body texts, truthy and
non-empty, first 10. -/
def adTexts (rawAds : List Ad) : List String :=
  ((rawAds.map getBodyText).filterMap fun t? =>
    match t? with
    | some t => if t = "" then none else some t
    | none => none).take 10

/-- The analyze tool's `finalResult` (src/server.ts:187-195). -/
def analyzeFinalResult (rawAds : List Ad) (hooks : List String) (nowIso : String) :
    AnalyzeResult :=
  { format_statistics := formatStatistics rawAds
    marketing_hooks := hooks
    metadata :=
      { page_name := strOr (rawAds.head?.bind (fun a => a.pageName)) "Unknown"
        analysis_date := nowIso
        sample_size := rawAds.length } }

/-! ### The analyzeCompetitorStrategy handler (src/server.ts:74-245) -/

/-- Oracle inputs for one run of the analyze handler: the request
parameters, `this.props?.userId`, and the values produced by the awaited
external calls.  `cached` is what `getCachedApifyResult` returned;
`slot` is what `acquireSlot` returned; `actorResult` is the value or
thrown error of `runActorSync`; `aiHooks` is the parsed hooks list when
the AI gateway call succeeded and parsed, otherwise `none`; `postFault`
is an unexpected error thrown after the actor succeeded and before the
cache write (e.g. the AI gateway request throwing). -/
structure AnalyzeOracle where
  userId : Option String
  facebook_page_url : String
  max_ads_to_analyze : Option Nat
  cached : Option AnalyzeResult
  slot : SemaphoreSlot
  actorResult : Except String ActorRunResult
  aiHooks : Option (List String)
  postFault : Option String
  nowIso : String

/-- Straight-line embedding of the analyzeCompetitorStrategy handler
(src/server.ts:74-245): user-id check, URL validation, cache lookup,
semaphore acquire on miss, actor run (the source has no `slot.acquired`
check between `acquireSlot` and `runActorSync`), result assembly, cache
write, with the catch block turning any thrown error into an
`Error: ...` result and the finally block releasing the slot exactly
when `slot && slot.acquired && userId`. -/
def analyzeCompetitorStrategy (o : AnalyzeOracle) : HandlerTrace AnalyzeResult :=
  match o.userId with
  | none =>
    { calledCacheLookup := false, calledAcquire := false, calledRunActor := false
      cacheWrites := [], releasedHolder := none
      outcome := .err "Error: User ID not found" }
  | some uid =>
    if testFacebookUrlPattern o.facebook_page_url = false then
      { calledCacheLookup := false, calledAcquire := false, calledRunActor := false
        cacheWrites := [], releasedHolder := none
        outcome := .err "Error: Invalid Facebook Page URL. Must start with https://facebook.com/" }
    else
      match o.cached with
      | some c =>
        { calledCacheLookup := true, calledAcquire := false, calledRunActor := false
          cacheWrites := [], releasedHolder := none
          outcome := .ok c }
      | none =>
        let rel : Option String := if o.slot.acquired then some uid else none
        match o.actorResult with
        | .error e =>
          { calledCacheLookup := true, calledAcquire := true, calledRunActor := true
            cacheWrites := [], releasedHolder := rel
            outcome := .err ("Error: " ++ e) }
        | .ok run =>
          let rawAds := run.items.getD []
          match o.postFault with
          | some e =>
            { calledCacheLookup := true, calledAcquire := true, calledRunActor := true
              cacheWrites := [], releasedHolder := rel
              outcome := .err ("Error: " ++ e) }
          | none =>
            let hooks := if 0 < (adTexts rawAds).length then o.aiHooks.getD [] else []
            let finalResult := analyzeFinalResult rawAds hooks o.nowIso
            { calledCacheLookup := true, calledAcquire := true, calledRunActor := true
              cacheWrites := [finalResult], releasedHolder := rel
              outcome := .ok finalResult }

/-- The denied admission result of the saturation scenario:
`{acquired:false, currentSlots:32, maxSlots:32}`. -/
def deniedSlot32 : SemaphoreSlot :=
  { acquired := false, currentSlots := 32, maxSlots := 32, estimatedWaitTime := some 60 }

/-- A request that misses the cache and is denied a slot. -/
def c1Oracle : AnalyzeOracle :=
  { userId := some "user-1"
    facebook_page_url := "https://www.facebook.com/Nike"
    max_ads_to_analyze := none
    cached := none
    slot := deniedSlot32
    actorResult := .ok { items := some [] }
    aiHooks := none
    postFault := none
    nowIso := "2026-01-01T00:00:00.000Z" }

/-! ### The checkActivityPulse handler (src/server.ts:443-574) -/

/-- One item returned by the scraper for the pulse tool
(`onlyTotal: true`). -/
structure PulseItem where
  totalCount : Option Nat
  pageName : Option String
  deriving Repr, DecidableEq

/-- The value returned by `runActorSync` for the pulse tool. -/
structure PulseRunResult where
  items : Option (List PulseItem)
  deriving Repr, DecidableEq

/-- The pulse tool's `finalResult` (src/server.ts:519-524). -/
structure PulseResult where
  is_active : Bool
  total_ads : Nat
  page_name : String
  last_updated : String
  deriving Repr, DecidableEq

/-- `results.items?.[0]?.totalCount || 0` (src/server.ts:516). -/
def pulseTotalCount (run : PulseRunResult) : Nat :=
  match (run.items.getD []).head? with
  | some it => it.totalCount.getD 0
  | none => 0

/-- `results.items?.[0]?.pageName || "Unknown"` (src/server.ts:517). -/
def pulsePageName (run : PulseRunResult) : String :=
  strOr ((run.items.getD []).head?.bind (fun it => it.pageName)) "Unknown"

/-- The pulse `finalResult` object (src/server.ts:519-524). -/
def pulseFinalResult (run : PulseRunResult) (nowIso : String) : PulseResult :=
  { is_active := decide (0 < pulseTotalCount run)
    total_ads := pulseTotalCount run
    page_name := pulsePageName run
    last_updated := nowIso }

/-- Oracle inputs for one run of the pulse handler, as for the analyze
handler (the pulse tool makes no AI call). -/
structure PulseOracle where
  userId : Option String
  facebook_page_url : String
  cached : Option PulseResult
  slot : SemaphoreSlot
  actorResult : Except String PulseRunResult
  nowIso : String

/-- Straight-line embedding of the checkActivityPulse handler
(src/server.ts:443-574), with the same control flow as the analyze
handler: user-id check, URL validation, cache lookup, semaphore acquire
on miss, actor run (again with no `slot.acquired` check), result
assembly, cache write, catch and finally. -/
def checkActivityPulse (o : PulseOracle) : HandlerTrace PulseResult :=
  match o.userId with
  | none =>
    { calledCacheLookup := false, calledAcquire := false, calledRunActor := false
      cacheWrites := [], releasedHolder := none
      outcome := .err "Error: User ID not found" }
  | some uid =>
    if testFacebookUrlPattern o.facebook_page_url = false then
      { calledCacheLookup := false, calledAcquire := false, calledRunActor := false
        cacheWrites := [], releasedHolder := none
        outcome := .err "Error: Invalid Facebook Page URL. Must start with https://facebook.com/" }
    else
      match o.cached with
      | some c =>
        { calledCacheLookup := true, calledAcquire := false, calledRunActor := false
          cacheWrites := [], releasedHolder := none
          outcome := .ok c }
      | none =>
        let rel : Option String := if o.slot.acquired then some uid else none
        match o.actorResult with
        | .error e =>
          { calledCacheLookup := true, calledAcquire := true, calledRunActor := true
            cacheWrites := [], releasedHolder := rel
            outcome := .err ("Error: " ++ e) }
        | .ok run =>
          let finalResult := pulseFinalResult run o.nowIso
          { calledCacheLookup := true, calledAcquire := true, calledRunActor := true
            cacheWrites := [finalResult], releasedHolder := rel
            outcome := .ok finalResult }

/-! ### Admission controller (ApifySemaphore)

`src/apify-semaphore.ts` is absent from the snapshot (only its import in
`src/index.ts` and its call sites remain), so the controller is modelled
from the specification, §4.2: `acquire` atomically checks occupancy
against capacity and either creates a slot and increments occupancy or
denies without mutating state; `release` removes the holder's slot and
is idempotent.  Since the spec requires every acquire/release to be a
single atomic unit (linearizable), a concurrent execution is modelled as
a sequence of atomic operations. -/

/-- A slot lease held by one caller (spec §3 "Slot"). -/
structure SemSlotLease where
  holder : String
  actorId : String
  acquiredAt : Nat
  deriving Repr, DecidableEq

/-- The controller's exclusively-owned state: outstanding slots and the
fixed capacity. -/
structure SemState where
  slots : List SemSlotLease
  maxSlots : Nat
  deriving Repr, DecidableEq

/-- Modelled from the spec: `acquireSlot` of the absent
`apify-semaphore.ts` (spec §4.2 `acquire`): if occupancy < capacity,
create a slot, increment occupancy and grant; otherwise deny without
mutating state, reporting current occupancy, capacity and an advisory
wait time. -/
def acquireSlot (s : SemState) (holder actorId : String) (now : Nat) :
    SemState × SemaphoreSlot :=
  if s.slots.length < s.maxSlots then
    ({ s with slots := ⟨holder, actorId, now⟩ :: s.slots },
     { acquired := true, currentSlots := s.slots.length + 1, maxSlots := s.maxSlots
       estimatedWaitTime := none })
  else
    (s, { acquired := false, currentSlots := s.slots.length, maxSlots := s.maxSlots
          estimatedWaitTime := some 60 })

/-- Modelled from the spec: `releaseSlot` of the absent
`apify-semaphore.ts` (spec §4.2 `release`): remove the slot associated
with the holder if present; releasing a holder with no active slot is a
no-op. -/
def releaseSlot (s : SemState) (holder : String) : SemState :=
  { s with slots := s.slots.filter (fun sl => sl.holder != holder) }

/-- One atomic operation against the controller. -/
inductive SemOp where
  | acquire (holder actorId : String) (now : Nat) : SemOp
  | release (holder : String) : SemOp

/-- Apply one atomic operation. -/
def applySemOp (s : SemState) (op : SemOp) : SemState :=
  match op with
  | .acquire h a n => (acquireSlot s h a n).1
  | .release h => releaseSlot s h

/-- Run a sequence of atomic operations (any interleaving of concurrent
callers, by the spec's linearizability requirement). -/
def runSemOps (s : SemState) : List SemOp → SemState
  | [] => s
  | op :: ops => runSemOps (applySemOp s op) ops

/-- Run a batch of acquire requests (holder, actorId pairs), collecting
each caller's admission result. -/
def acquireAll (s : SemState) : List (String × String) → SemState × List SemaphoreSlot
  | [] => (s, [])
  | (h, a) :: rest =>
    let step := acquireSlot s h a 0
    let next := acquireAll step.1 rest
    (next.1, step.2 :: next.2)

/-! ### Result cache (apify-cache.ts)

`src/apify-cache.ts` is absent from the snapshot (only its imports and
call sites remain), so `hashApifyInput`, `getCachedApifyResult` and
`setCachedApifyResult` are modelled from the specification, §4.1 and §6:
the fingerprint is a pure deterministic function of the operation
identity and the canonicalized (key-sorted) parameters; `get` returns
absent when the entry is missing or expired and degrades any backend
failure to a miss; `put` stores the payload with a TTL, overwriting any
existing entry. -/

/-- External-call parameters as a key-value map (the `Canonicalizable`
params of spec §6). -/
def ParamMap : Type := List (String × String)

/-- Insert one key-value pair into a key-sorted list, keeping it
sorted. -/
def insertByKey (kv : String × String) : ParamMap → ParamMap
  | [] => [kv]
  | x :: xs => if kv.1 ≤ x.1 then kv :: x :: xs else x :: insertByKey kv xs

/-- Canonicalize a parameter map by sorting its entries by key
(spec §4.1: "canonicalize before hashing"). -/
def canonicalizeParams : ParamMap → ParamMap
  | [] => []
  | x :: xs => insertByKey x (canonicalizeParams xs)

/-- Serialize a canonical parameter map to a flat string. -/
def serializeParams (p : ParamMap) : String :=
  p.foldr (fun kv acc => kv.1 ++ "=" ++ kv.2 ++ ";" ++ acc) ""

/-- Modelled from the spec: `hashApifyInput` of the absent
`apify-cache.ts` — a pure, deterministic fingerprint of the operation
identity (actor id) and the canonicalized parameters (spec §4.1
`fingerprint`).  The hash itself is modelled as the canonical
serialization. -/
def hashApifyInput (actorId : String) (input : ParamMap) : String :=
  actorId ++ "|" ++ serializeParams (canonicalizeParams input)

/-- One stored cache entry: payload, store time, TTL (spec §3 "Cache
entry"). -/
structure CacheEntry (α : Type) where
  payload : α
  storedAt : Nat
  ttl : Nat

/-- The cache store's contents, keyed by fingerprint. -/
def CacheState (α : Type) : Type := String → Option (CacheEntry α)

/-- Modelled from the spec: `setCachedApifyResult` of the absent
`apify-cache.ts` (spec §4.1 `put`): store the payload under the key with
the given TTL, overwriting any existing entry. -/
def setCachedApifyResult {α : Type} (store : CacheState α) (key : String) (payload : α)
    (ttl now : Nat) : CacheState α :=
  fun k => if k = key then some ⟨payload, now, ttl⟩ else store k

/-- Modelled from the spec: `getCachedApifyResult` of the absent
`apify-cache.ts` (spec §4.1 `get` and failure semantics): when the
backend is unreachable (`backendUp = false`) degrade to a miss; an entry
past its expiration (`storedAt + ttl ≤ now`) is treated as absent. -/
def getCachedApifyResult {α : Type} (backendUp : Bool) (store : CacheState α) (key : String)
    (now : Nat) : Option α :=
  if backendUp then
    match store key with
    | some e => if now < e.storedAt + e.ttl then some e.payload else none
    | none => none
  else
    none

/-- `CACHE_TTL` of every tool handler (src/server.ts:80): 21600 seconds
(6 hours). -/
def CACHE_TTL : Nat := 21600

/-! ### Concrete inputs used by the per-claim witnesses -/

/-- A cached analyze payload. -/
def c2Payload : AnalyzeResult :=
  { format_statistics := { total := 2, video_percentage := 50, image_percentage := 50 }
    marketing_hooks := ["hook one"]
    metadata := { page_name := "Nike", analysis_date := "2026-01-01T00:00:00.000Z", sample_size := 2 } }

/-- A request that hits the cache. -/
def c2Oracle : AnalyzeOracle :=
  { userId := some "user-2"
    facebook_page_url := "https://facebook.com/Nike"
    max_ads_to_analyze := some 10
    cached := some c2Payload
    slot := { acquired := false, currentSlots := 0, maxSlots := 32, estimatedWaitTime := none }
    actorResult := .ok { items := none }
    aiHooks := none
    postFault := none
    nowIso := "2026-01-01T00:00:00.000Z" }

/-- A request on which the actor run fails. -/
def c4Oracle : AnalyzeOracle :=
  { userId := some "user-4"
    facebook_page_url := "https://www.facebook.com/Nike"
    max_ads_to_analyze := none
    cached := none
    slot := { acquired := true, currentSlots := 1, maxSlots := 32, estimatedWaitTime := none }
    actorResult := .error "Actor run timed out after 120 seconds"
    aiHooks := none
    postFault := none
    nowIso := "2026-01-01T00:00:00.000Z" }

/-- A request whose cache lookup hit an unreachable backend. -/
def c6Oracle : AnalyzeOracle :=
  { userId := some "user-6"
    facebook_page_url := "https://www.facebook.com/Nike"
    max_ads_to_analyze := none
    cached := none
    slot := { acquired := true, currentSlots := 1, maxSlots := 32, estimatedWaitTime := none }
    actorResult := .ok { items := some [] }
    aiHooks := none
    postFault := none
    nowIso := "2026-01-01T00:00:00.000Z" }

/-- A request with a URL that does not match the Facebook pattern
(plain `http`). -/
def c9Oracle : AnalyzeOracle :=
  { userId := some "user-9"
    facebook_page_url := "http://facebook.com/Nike"
    max_ads_to_analyze := none
    cached := none
    slot := { acquired := false, currentSlots := 0, maxSlots := 32, estimatedWaitTime := none }
    actorResult := .ok { items := none }
    aiHooks := none
    postFault := none
    nowIso := "2026-01-01T00:00:00.000Z" }

/-- A pulse scraper result with one item. -/
def c10Run : PulseRunResult :=
  { items := some [{ totalCount := some 50001, pageName := some "SHEIN" }] }

/-- A successful non-cached pulse request. -/
def c10Oracle : PulseOracle :=
  { userId := some "user-10"
    facebook_page_url := "https://www.facebook.com/SHEIN"
    cached := none
    slot := { acquired := true, currentSlots := 1, maxSlots := 32, estimatedWaitTime := none }
    actorResult := .ok c10Run
    nowIso := "2026-02-14T08:00:00.000Z" }

/-! ### Helper lemmas: key-sorted canonicalization -/

theorem insertByKey_perm (kv : String × String) (l : ParamMap) :
    (insertByKey kv l).Perm (kv :: l) := by
  induction l with
  | nil => simp [insertByKey]
  | cons x xs ih =>
    simp only [insertByKey]
    split
    · exact List.Perm.refl _
    · exact (ih.cons x).trans (List.Perm.swap kv x xs)

theorem canonicalizeParams_perm (l : ParamMap) : (canonicalizeParams l).Perm l := by
  induction l with
  | nil => simp [canonicalizeParams]
  | cons x xs ih => exact (insertByKey_perm x _).trans (ih.cons x)

theorem insertByKey_pairwise {kv : String × String} {l : ParamMap}
    (h : l.Pairwise (fun a b => a.1 ≤ b.1)) :
    (insertByKey kv l).Pairwise (fun a b => a.1 ≤ b.1) := by
  induction l with
  | nil => simp [insertByKey]
  | cons x xs ih =>
    rcases List.pairwise_cons.mp h with ⟨hx, hxs⟩
    simp only [insertByKey]
    split
    case isTrue hle =>
      refine List.pairwise_cons.mpr ⟨?_, h⟩
      intro b hb
      rcases List.mem_cons.mp hb with rfl | hb
      · exact hle
      · exact le_trans hle (hx b hb)
    case isFalse hgt =>
      refine List.pairwise_cons.mpr ⟨?_, ih hxs⟩
      intro b hb
      have hb' : b = kv ∨ b ∈ xs := by
        simpa using (insertByKey_perm kv xs).mem_iff.mp hb
      rcases hb' with rfl | hb'
      · exact le_of_not_le hgt
      · exact hx b hb'

theorem canonicalizeParams_pairwise (l : ParamMap) :
    (canonicalizeParams l).Pairwise (fun a b => a.1 ≤ b.1) := by
  induction l with
  | nil => simp [canonicalizeParams]
  | cons x xs ih => exact insertByKey_pairwise ih

theorem eq_of_key_sorted_of_perm {l₁ l₂ : ParamMap} (hp : l₁.Perm l₂)
    (hnd : (l₁.map Prod.fst).Nodup)
    (hs₁ : l₁.Pairwise (fun a b => a.1 ≤ b.1))
    (hs₂ : l₂.Pairwise (fun a b => a.1 ≤ b.1)) : l₁ = l₂ := by
  induction l₁ generalizing l₂ with
  | nil => exact hp.nil_eq
  | cons a t₁ ih =>
    cases l₂ with
    | nil => exact absurd hp.eq_nil (by simp)
    | cons b t₂ =>
      rcases List.pairwise_cons.mp hs₁ with ⟨ha, hs₁'⟩
      rcases List.pairwise_cons.mp hs₂ with ⟨hb, hs₂'⟩
      have hnd' := hnd
      rw [List.map_cons, List.nodup_cons] at hnd'
      rcases hnd' with ⟨hak, hndt⟩
      have hab : a = b := by
        have haIn : a ∈ b :: t₂ := hp.subset (List.mem_cons_self a t₁)
        have hbIn : b ∈ a :: t₁ := hp.symm.subset (List.mem_cons_self b t₂)
        rcases List.mem_cons.mp haIn with h1 | haT2
        · exact h1
        rcases List.mem_cons.mp hbIn with h1 | hbT1
        · exact h1.symm
        have h₁ : a.1 ≤ b.1 := ha b hbT1
        have h₂ : b.1 ≤ a.1 := hb a haT2
        have hk : a.1 = b.1 := le_antisymm h₁ h₂
        have : a.1 ∈ t₁.map Prod.fst := by
          rw [hk]
          exact List.mem_map_of_mem Prod.fst hbT1
        exact absurd this hak
      subst hab
      rw [ih hp.cons_inv hndt hs₁' hs₂']

theorem canonicalizeParams_eq_of_perm {p₁ p₂ : ParamMap} (hperm : p₁.Perm p₂)
    (hnd : (p₁.map Prod.fst).Nodup) :
    canonicalizeParams p₁ = canonicalizeParams p₂ := by
  refine eq_of_key_sorted_of_perm ?_ ?_ (canonicalizeParams_pairwise p₁)
    (canonicalizeParams_pairwise p₂)
  · exact (canonicalizeParams_perm p₁).trans (hperm.trans (canonicalizeParams_perm p₂).symm)
  · exact ((canonicalizeParams_perm p₁).map Prod.fst).nodup_iff.mpr hnd

/-! ### Helper lemmas: admission controller -/

theorem applySemOp_maxSlots (s : SemState) (op : SemOp) :
    (applySemOp s op).maxSlots = s.maxSlots := by
  cases op with
  | acquire h a n =>
    simp only [applySemOp, acquireSlot]
    split <;> rfl
  | release h => rfl

theorem applySemOp_occupancy_le (s : SemState) (op : SemOp)
    (h : s.slots.length ≤ s.maxSlots) :
    (applySemOp s op).slots.length ≤ s.maxSlots := by
  cases op with
  | acquire hd a n =>
    simp only [applySemOp, acquireSlot]
    split
    case isTrue hlt => simpa using hlt
    case isFalse => exact h
  | release hd =>
    simp only [applySemOp, releaseSlot]
    exact le_trans (List.length_filter_le _ _) h

theorem runSemOps_occupancy_le (s : SemState) (ops : List SemOp)
    (h : s.slots.length ≤ s.maxSlots) :
    (runSemOps s ops).slots.length ≤ s.maxSlots := by
  induction ops generalizing s with
  | nil => exact h
  | cons op ops ih =>
    have hm := applySemOp_maxSlots s op
    have h1 := applySemOp_occupancy_le s op h
    have h2 := ih (applySemOp s op) (by rw [hm]; exact h1)
    rw [hm] at h2
    exact h2

theorem acquireAll_spec (reqs : List (String × String)) (s : SemState)
    (h : s.slots.length ≤ s.maxSlots) :
    (acquireAll s reqs).2.countP (fun r => r.acquired)
        = min reqs.length (s.maxSlots - s.slots.length) ∧
    (acquireAll s reqs).2.countP (fun r => !r.acquired)
        = reqs.length - (s.maxSlots - s.slots.length) ∧
    ∀ r ∈ (acquireAll s reqs).2, r.acquired = false →
      r.currentSlots = s.maxSlots ∧ r.maxSlots = s.maxSlots := by
  induction reqs generalizing s with
  | nil =>
    refine ⟨?_, ?_, ?_⟩ <;> simp [acquireAll]
  | cons req rest ih =>
    obtain ⟨hd, a⟩ := req
    by_cases hlt : s.slots.length < s.maxSlots
    · have hstep : acquireSlot s hd a 0 =
          ({ s with slots := ⟨hd, a, 0⟩ :: s.slots },
           { acquired := true, currentSlots := s.slots.length + 1, maxSlots := s.maxSlots
             estimatedWaitTime := none }) := by
        simp [acquireSlot, hlt]
      have hrec := ih { s with slots := ⟨hd, a, 0⟩ :: s.slots } (by simpa using hlt)
      rcases hrec with ⟨hg, hd', hmem⟩
      refine ⟨?_, ?_, ?_⟩
      · simp only [acquireAll, hstep, List.countP_cons]
        simp only [List.length_cons] at hg
        simp [hg]
        omega
      · simp only [acquireAll, hstep, List.countP_cons]
        simp only [List.length_cons] at hd'
        simp [hd']
        omega
      · intro r hr hracq
        simp only [acquireAll, hstep] at hr
        rcases List.mem_cons.mp hr with rfl | hr'
        · simp at hracq
        · simpa using hmem r hr' hracq
    · have heq : s.slots.length = s.maxSlots := le_antisymm h (le_of_not_lt hlt)
      have hstep : acquireSlot s hd a 0 =
          (s, { acquired := false, currentSlots := s.slots.length, maxSlots := s.maxSlots
                estimatedWaitTime := some 60 }) := by
        simp [acquireSlot, hlt]
      have hrec := ih s h
      rcases hrec with ⟨hg, hd', hmem⟩
      refine ⟨?_, ?_, ?_⟩
      · simp only [acquireAll, hstep, List.countP_cons]
        simp [hg]
        omega
      · simp only [acquireAll, hstep, List.countP_cons]
        simp [hd']
        omega
      · intro r hr hracq
        simp only [acquireAll, hstep] at hr
        rcases List.mem_cons.mp hr with rfl | hr'
        · exact ⟨heq, rfl⟩
        · exact hmem r hr' hracq

/-! ### Claim theorems -/

set_option maxRecDepth 4096 in
/-- C1: on a cache miss with `acquired = false` the handler must not
invoke `runActorSync`.  The code violates this: there is no
`slot.acquired` check between `acquireSlot` (src/server.ts:137) and
`runActorSync` (src/server.ts:141), so the actor is invoked anyway.
This theorem evaluates the embedded handler at such a request and shows
the actor call happens. -/
theorem C1_runActorSync_called_despite_denied_slot :
    c1Oracle.cached = none ∧ c1Oracle.slot.acquired = false ∧
    (analyzeCompetitorStrategy c1Oracle).calledRunActor = true := by
  refine ⟨rfl, rfl, ?_⟩
  decide

/-- C2: a request whose fingerprint is found in the cache returns the
cached payload without calling `acquireSlot` and without any cache write
or release, so admission-controller occupancy is unchanged across the
request (src/server.ts:105-130: the cached early return precedes the
semaphore acquire at line 137). -/
theorem C2_cache_hit_bypasses_admission (o : AnalyzeOracle) (uid : String) (c : AnalyzeResult)
    (hu : o.userId = some uid)
    (hurl : testFacebookUrlPattern o.facebook_page_url = true)
    (hc : o.cached = some c) :
    (analyzeCompetitorStrategy o).calledAcquire = false ∧
    (analyzeCompetitorStrategy o).releasedHolder = none ∧
    (analyzeCompetitorStrategy o).cacheWrites = [] ∧
    (analyzeCompetitorStrategy o).outcome = ToolOutcome.ok c := by
  simp [analyzeCompetitorStrategy, hu, hurl, hc]

set_option maxRecDepth 4096 in
/-- Witness for C2 at a concrete cache-hit request. -/
theorem C2_cache_hit_bypasses_admission_witness :
    c2Oracle.userId = some "user-2" ∧
    testFacebookUrlPattern c2Oracle.facebook_page_url = true ∧
    c2Oracle.cached = some c2Payload ∧
    ((analyzeCompetitorStrategy c2Oracle).calledAcquire = false ∧
     (analyzeCompetitorStrategy c2Oracle).releasedHolder = none ∧
     (analyzeCompetitorStrategy c2Oracle).cacheWrites = [] ∧
     (analyzeCompetitorStrategy c2Oracle).outcome = ToolOutcome.ok c2Payload) :=
  ⟨rfl, by decide, rfl,
   C2_cache_hit_bypasses_admission c2Oracle "user-2" c2Payload rfl (by decide) rfl⟩

/-- C3: on every exit path that followed a successful acquire — normal
return, actor error surfaced to the caller, and an unexpected fault
thrown after the actor — `releaseSlot` is invoked for exactly the
acquiring holder, and it is not invoked when the slot was denied or when
acquire was never reached (the `finally` block at src/server.ts:237-244
releases iff `slot && slot.acquired && userId`). -/
theorem C3_release_iff_slot_acquired (o : AnalyzeOracle) :
    (analyzeCompetitorStrategy o).releasedHolder =
      (if ((analyzeCompetitorStrategy o).calledAcquire && o.slot.acquired) = true
        then o.userId else none) := by
  rcases o with ⟨uid?, url, maxAds, cached, ⟨acq, cs, ms, ew⟩, actorResult, aiHooks, postFault, nowIso⟩
  cases uid? <;> cases cached <;> cases actorResult <;> cases postFault <;> cases acq <;>
    by_cases hurl : testFacebookUrlPattern url = false <;>
      simp [analyzeCompetitorStrategy, hurl]

/-- C4: when the actor run fails (timeout or upstream error), no cache
write occurs and the error is surfaced as a failure result
(src/server.ts:140-204: `setCachedApifyResult` is only reached after
`runActorSync` returns; the catch block at lines 227-236 returns the
error). -/
theorem C4_actor_failure_no_cache_write (o : AnalyzeOracle) (uid e : String)
    (hu : o.userId = some uid)
    (hurl : testFacebookUrlPattern o.facebook_page_url = true)
    (hmiss : o.cached = none)
    (hfail : o.actorResult = Except.error e) :
    (analyzeCompetitorStrategy o).cacheWrites = [] ∧
    (analyzeCompetitorStrategy o).outcome = ToolOutcome.err ("Error: " ++ e) ∧
    ((analyzeCompetitorStrategy o).outcome).isErr = true := by
  simp [analyzeCompetitorStrategy, hu, hurl, hmiss, hfail, ToolOutcome.isErr]

set_option maxRecDepth 4096 in
/-- Witness for C4 at a concrete failed actor run. -/
theorem C4_actor_failure_no_cache_write_witness :
    c4Oracle.userId = some "user-4" ∧
    testFacebookUrlPattern c4Oracle.facebook_page_url = true ∧
    c4Oracle.cached = none ∧
    c4Oracle.actorResult = Except.error "Actor run timed out after 120 seconds" ∧
    ((analyzeCompetitorStrategy c4Oracle).cacheWrites = [] ∧
     (analyzeCompetitorStrategy c4Oracle).outcome
        = ToolOutcome.err ("Error: " ++ "Actor run timed out after 120 seconds") ∧
     ((analyzeCompetitorStrategy c4Oracle).outcome).isErr = true) :=
  ⟨rfl, by decide, rfl, rfl,
   C4_actor_failure_no_cache_write c4Oracle "user-4" "Actor run timed out after 120 seconds"
     rfl (by decide) rfl rfl⟩

/-- C5: the admission controller (modelled from the spec, §4.2, since
`apify-semaphore.ts` is absent from the snapshot) never lets occupancy
exceed `maxSlots` under any sequence of atomic acquire/release
operations; `maxSlots + K` acquires from an empty 32-slot controller
grant exactly 32, deny exactly `K`, and every denied response reports
`currentSlots = maxSlots = 32`; and at occupancy `capacity - 1` two
successive callers are never both granted — the first is granted and the
second denied. -/
theorem C5_capacity_invariant :
    (∀ (s : SemState) (ops : List SemOp), s.slots.length ≤ s.maxSlots →
      (runSemOps s ops).slots.length ≤ s.maxSlots) ∧
    (∀ (K : Nat) (reqs : List (String × String)), reqs.length = 32 + K →
      (acquireAll ⟨[], 32⟩ reqs).2.countP (fun r => r.acquired) = 32 ∧
      (acquireAll ⟨[], 32⟩ reqs).2.countP (fun r => !r.acquired) = K ∧
      ∀ r ∈ (acquireAll ⟨[], 32⟩ reqs).2, r.acquired = false →
        r.currentSlots = 32 ∧ r.maxSlots = 32) ∧
    (∀ (s : SemState) (h₁ a₁ h₂ a₂ : String) (n₁ n₂ : Nat),
      s.slots.length + 1 = s.maxSlots →
      (acquireSlot s h₁ a₁ n₁).2.acquired = true ∧
      (acquireSlot (acquireSlot s h₁ a₁ n₁).1 h₂ a₂ n₂).2.acquired = false) := by
  refine ⟨runSemOps_occupancy_le, ?_, ?_⟩
  · intro K reqs hlen
    have h := acquireAll_spec reqs ⟨[], 32⟩ (by simp)
    rcases h with ⟨hg, hd, hmem⟩
    refine ⟨?_, ?_, hmem⟩
    · rw [hg, hlen]
      simp
    · rw [hd, hlen]
      simp
  · intro s h₁ a₁ h₂ a₂ n₁ n₂ hocc
    have hlt : s.slots.length < s.maxSlots := by omega
    have hfull : ¬ (s.slots.length + 1 < s.maxSlots) := by omega
    constructor
    · simp [acquireSlot, hlt]
    · simp [acquireSlot, hlt, hfull]

/-- Witness for C5 at concrete operation sequences: one acquire stays
within capacity; 33 acquires against the empty 32-slot controller grant
32 and deny 1 with the denial reporting 32/32; at occupancy 31 of 32 the
first of two callers is granted and the second denied. -/
theorem C5_capacity_invariant_witness :
    ((runSemOps ⟨[], 32⟩ [SemOp.acquire "u" "a" 0]).slots.length
        ≤ (⟨[], 32⟩ : SemState).maxSlots) ∧
    ((acquireAll ⟨[], 32⟩ (List.replicate 33 ("u", "a"))).2.countP (fun r => r.acquired) = 32 ∧
     (acquireAll ⟨[], 32⟩ (List.replicate 33 ("u", "a"))).2.countP (fun r => !r.acquired) = 1 ∧
     ∀ r ∈ (acquireAll ⟨[], 32⟩ (List.replicate 33 ("u", "a"))).2, r.acquired = false →
       r.currentSlots = 32 ∧ r.maxSlots = 32) ∧
    ((acquireSlot ⟨List.replicate 31 ⟨"u", "a", 0⟩, 32⟩ "h1" "a1" 0).2.acquired = true ∧
     (acquireSlot (acquireSlot ⟨List.replicate 31 ⟨"u", "a", 0⟩, 32⟩ "h1" "a1" 0).1
         "h2" "a2" 1).2.acquired = false) :=
  ⟨C5_capacity_invariant.1 ⟨[], 32⟩ [SemOp.acquire "u" "a" 0] (by decide),
   C5_capacity_invariant.2.1 1 (List.replicate 33 ("u", "a")) (by simp),
   C5_capacity_invariant.2.2 ⟨List.replicate 31 ⟨"u", "a", 0⟩, 32⟩ "h1" "a1" "h2" "a2" 0 1
     (by simp)⟩

/-- C6: a cache-backend failure during the lookup behaves as a miss
(`getCachedApifyResult`, modelled from the spec since `apify-cache.ts`
is absent, maps an unreachable backend to `none`): the request is not
aborted and proceeds to the admission controller and the external
operation exactly as on a miss (src/server.ts:106-141). -/
theorem C6_cache_backend_failure_degrades_to_miss
    (store : CacheState AnalyzeResult) (key : String) (now : Nat)
    (o : AnalyzeOracle) (uid : String)
    (hu : o.userId = some uid)
    (hurl : testFacebookUrlPattern o.facebook_page_url = true)
    (hc : o.cached = getCachedApifyResult false store key now) :
    o.cached = none ∧
    (analyzeCompetitorStrategy o).calledAcquire = true ∧
    (analyzeCompetitorStrategy o).calledRunActor = true := by
  have hmiss : o.cached = none := by simpa [getCachedApifyResult] using hc
  cases har : o.actorResult with
  | error e => simp [analyzeCompetitorStrategy, hu, hurl, hmiss, har]
  | ok run =>
    cases hpf : o.postFault <;>
      simp [analyzeCompetitorStrategy, hu, hurl, hmiss, har, hpf]

set_option maxRecDepth 4096 in
/-- Witness for C6 at a concrete request whose cache backend is down. -/
theorem C6_cache_backend_failure_degrades_to_miss_witness :
    c6Oracle.userId = some "user-6" ∧
    testFacebookUrlPattern c6Oracle.facebook_page_url = true ∧
    c6Oracle.cached = getCachedApifyResult false (fun _ => none) "key" 0 ∧
    (c6Oracle.cached = none ∧
     (analyzeCompetitorStrategy c6Oracle).calledAcquire = true ∧
     (analyzeCompetitorStrategy c6Oracle).calledRunActor = true) :=
  ⟨rfl, by decide, rfl,
   C6_cache_backend_failure_degrades_to_miss (fun _ => none) "key" 0 c6Oracle "user-6"
     rfl (by decide) rfl⟩

/-- C7: storing a payload and immediately looking it up with the same
canonicalized parameters returns that payload exactly, and the
fingerprint (`hashApifyInput`, modelled from the spec since
`apify-cache.ts` is absent) is identical for parameter maps that differ
only in key ordering (any permutation of a duplicate-free key-value
map). -/
theorem C7_cache_roundtrip_and_canonical_fingerprint {α : Type}
    (store : CacheState α) (op : String) (p₁ p₂ : ParamMap) (payload : α) (ttl now : Nat)
    (hperm : p₁.Perm p₂) (hnd : (p₁.map Prod.fst).Nodup) (httl : 0 < ttl) :
    hashApifyInput op p₁ = hashApifyInput op p₂ ∧
    getCachedApifyResult true
      (setCachedApifyResult store (hashApifyInput op p₁) payload ttl now)
      (hashApifyInput op p₂) now = some payload := by
  have hkey : hashApifyInput op p₁ = hashApifyInput op p₂ := by
    unfold hashApifyInput
    rw [canonicalizeParams_eq_of_perm hperm hnd]
  refine ⟨hkey, ?_⟩
  rw [← hkey]
  have hlive : now < now + ttl := by omega
  simp [getCachedApifyResult, setCachedApifyResult, hlive]

/-- Witness for C7: the analyze actor input with two of its keys swapped
yields the same fingerprint, and the round trip returns the stored
payload. -/
theorem C7_cache_roundtrip_and_canonical_fingerprint_witness :
    ([("resultsLimit", "10"), ("activeStatus", "active")] : ParamMap).Perm
      ([("activeStatus", "active"), ("resultsLimit", "10")] : ParamMap) ∧
    (([("resultsLimit", "10"), ("activeStatus", "active")] : ParamMap).map Prod.fst).Nodup ∧
    0 < CACHE_TTL ∧
    (hashApifyInput "apify/facebook-ads-scraper"
        [("resultsLimit", "10"), ("activeStatus", "active")]
      = hashApifyInput "apify/facebook-ads-scraper"
        [("activeStatus", "active"), ("resultsLimit", "10")] ∧
     getCachedApifyResult true
        (setCachedApifyResult (fun _ => none)
          (hashApifyInput "apify/facebook-ads-scraper"
            [("resultsLimit", "10"), ("activeStatus", "active")])
          (7 : Nat) CACHE_TTL 0)
        (hashApifyInput "apify/facebook-ads-scraper"
          [("activeStatus", "active"), ("resultsLimit", "10")]) 0 = some 7) :=
  ⟨by decide, by decide, by decide,
   C7_cache_roundtrip_and_canonical_fingerprint (fun _ => none) "apify/facebook-ads-scraper"
     [("resultsLimit", "10"), ("activeStatus", "active")]
     [("activeStatus", "active"), ("resultsLimit", "10")]
     7 CACHE_TTL 0 (by decide) (by decide) (by decide)⟩

/-- C8: a lookup performed once the entry's TTL (21600 seconds,
src/server.ts:80) has elapsed since the store returns absent — an
expired entry is treated exactly like a missing one (spec §3 cache-entry
invariant; `apify-cache.ts` is absent, so expiry is modelled from the
spec). -/
theorem C8_ttl_expiry {α : Type} (store : CacheState α) (key : String) (payload : α)
    (storedAt tLookup : Nat)
    (h : storedAt + CACHE_TTL ≤ tLookup) :
    getCachedApifyResult true
      (setCachedApifyResult store key payload CACHE_TTL storedAt) key tLookup = none := by
  have hexp : ¬ (tLookup < storedAt + CACHE_TTL) := by omega
  simp [getCachedApifyResult, setCachedApifyResult, hexp]

/-- Witness for C8: a store at time 0 is absent when looked up at time
21600. -/
theorem C8_ttl_expiry_witness :
    0 + CACHE_TTL ≤ 21600 ∧
    getCachedApifyResult true
      (setCachedApifyResult (fun _ => none) "key" (7 : Nat) CACHE_TTL 0) "key" 21600 = none :=
  ⟨by decide, C8_ttl_expiry (fun _ => none) "key" 7 0 21600 (by decide)⟩

/-- C9: a request whose URL does not match
`^https:\/\/(www\.)?facebook\.com\/.+$` returns an error result with no
side effect: no cache lookup, no cache write, no acquire, no actor run,
no release (validation at src/server.ts:90-94 precedes every external
call). -/
theorem C9_invalid_url_no_side_effects (o : AnalyzeOracle)
    (hurl : testFacebookUrlPattern o.facebook_page_url = false) :
    (analyzeCompetitorStrategy o).calledCacheLookup = false ∧
    (analyzeCompetitorStrategy o).calledAcquire = false ∧
    (analyzeCompetitorStrategy o).calledRunActor = false ∧
    (analyzeCompetitorStrategy o).cacheWrites = [] ∧
    (analyzeCompetitorStrategy o).releasedHolder = none ∧
    ((analyzeCompetitorStrategy o).outcome).isErr = true := by
  cases hu : o.userId <;>
    simp [analyzeCompetitorStrategy, hu, hurl, ToolOutcome.isErr]

set_option maxRecDepth 4096 in
/-- Witness for C9 at a concrete non-matching (plain http) URL. -/
theorem C9_invalid_url_no_side_effects_witness :
    testFacebookUrlPattern c9Oracle.facebook_page_url = false ∧
    ((analyzeCompetitorStrategy c9Oracle).calledCacheLookup = false ∧
     (analyzeCompetitorStrategy c9Oracle).calledAcquire = false ∧
     (analyzeCompetitorStrategy c9Oracle).calledRunActor = false ∧
     (analyzeCompetitorStrategy c9Oracle).cacheWrites = [] ∧
     (analyzeCompetitorStrategy c9Oracle).releasedHolder = none ∧
     ((analyzeCompetitorStrategy c9Oracle).outcome).isErr = true) :=
  ⟨by decide, C9_invalid_url_no_side_effects c9Oracle (by decide)⟩

/-- C10: a successful non-cached pulse request returns exactly the
`finalResult` of src/server.ts:519-524, whose `total_ads` is the
scraper's first item's `totalCount` (0 when there are no items or no
`totalCount`, via `pulseTotalCount`, the embedding of
`results.items?.[0]?.totalCount || 0`) and whose `is_active` is true iff
`total_ads > 0`. -/
theorem C10_pulse_activity_result (o : PulseOracle) (uid : String) (run : PulseRunResult)
    (hu : o.userId = some uid)
    (hurl : testFacebookUrlPattern o.facebook_page_url = true)
    (hmiss : o.cached = none)
    (hok : o.actorResult = Except.ok run) :
    (checkActivityPulse o).outcome = ToolOutcome.ok (pulseFinalResult run o.nowIso) ∧
    (pulseFinalResult run o.nowIso).total_ads = pulseTotalCount run ∧
    ((pulseFinalResult run o.nowIso).is_active = true ↔ 0 < pulseTotalCount run) := by
  refine ⟨?_, rfl, ?_⟩
  · simp [checkActivityPulse, hu, hurl, hmiss, hok]
  · simp [pulseFinalResult]

set_option maxRecDepth 4096 in
/-- Witness for C10 at a concrete one-item scraper result. -/
theorem C10_pulse_activity_result_witness :
    c10Oracle.userId = some "user-10" ∧
    testFacebookUrlPattern c10Oracle.facebook_page_url = true ∧
    c10Oracle.cached = none ∧
    c10Oracle.actorResult = Except.ok c10Run ∧
    ((checkActivityPulse c10Oracle).outcome
        = ToolOutcome.ok (pulseFinalResult c10Run c10Oracle.nowIso) ∧
     (pulseFinalResult c10Run c10Oracle.nowIso).total_ads = pulseTotalCount c10Run ∧
     ((pulseFinalResult c10Run c10Oracle.nowIso).is_active = true
        ↔ 0 < pulseTotalCount c10Run)) :=
  ⟨rfl, by decide, rfl, rfl,
   C10_pulse_activity_result c10Oracle "user-10" c10Run rfl (by decide) rfl rfl⟩
